import Mathlib

/-!
Verification of the Split Translator background script.

A shallow embedding of `src/background.ts` (the background service worker of
the Split Translator browser extension) together with proofs about the
geometry resolver and the split-and-translate orchestration pipeline.

Modelling conventions:
* JavaScript numbers holding pixel coordinates are modelled as `Int`
  (all inputs are integral pixel values; IEEE doubles are exact on them).
  The one fractional intermediate — the window centre `left + width/2` —
  is carried doubled so it stays an integer; `centerInWorkArea_eq_rat`
  proves this encoding equivalent to the exact rational arithmetic of the
  source.
* Fields that may be `undefined` at runtime are modelled as `Option _`.
* Every fallible host-API call (`chrome.windows.*`, `chrome.tabs.*`,
  `chrome.storage.*`) is a field of an `Env` record returning
  `Except String _`; the orchestration is a total function over `Env`.
* The single-key `chrome.storage.local` record is threaded explicitly as
  `Store := Option SplitViewData`.
-/

/-- A rectangle as used for window positions (`WindowPosition` in
`shared-types.ts`): all four fields are plain numbers. -/
structure WindowPosition where
  left : Int
  top : Int
  width : Int
  height : Int
deriving DecidableEq

/-- A display area (`DisplayBounds` in `shared-types.ts`): the rectangle the
geometry resolver works on.  All fields present. -/
structure DisplayBounds where
  left : Int
  top : Int
  width : Int
  height : Int
deriving DecidableEq

/-- One entry of the `chrome.system.display.getInfo` result; the background
script only reads its `workArea` rectangle. -/
structure Display where
  workArea : DisplayBounds
deriving DecidableEq

instance : Inhabited Display := ⟨⟨0, 0, 0, 0⟩⟩

/-- The bounds fields of a `chrome.windows.Window`; each of them is optional
in the Chrome API, hence `Option Int` (the source reads them with `?? 0`
resp. `?? DEFAULT_WINDOW_WIDTH/HEIGHT`). -/
structure WindowBounds where
  left : Option Int
  top : Option Int
  width : Option Int
  height : Option Int
deriving DecidableEq

/-- The fields of `chrome.tabs.Tab` the background script reads.
`windowId = none` models both an absent field and a non-number value
(the source checks `typeof currentTab.windowId !== "number"`). -/
structure Tab where
  id : Option Int
  url : Option String
  windowId : Option Int
deriving DecidableEq

-- Constants of `background.ts` (lines 6-10).
def OVERLAP_PIXELS : Int := 8
def MIN_WINDOW_WIDTH : Int := 400
def MIN_WINDOW_HEIGHT : Int := 300
def DEFAULT_WINDOW_WIDTH : Int := 800
def DEFAULT_WINDOW_HEIGHT : Int := 600

/-- `enforceMinimumDimensions` (background.ts lines 217-223):
clamp width/height up to the fixed minimums, leaving left/top unchanged. -/
def enforceMinimumDimensions (bounds : DisplayBounds) : DisplayBounds :=
  { bounds with
    width := max bounds.width MIN_WINDOW_WIDTH
    height := max bounds.height MIN_WINDOW_HEIGHT }

/-- Twice the `windowCenterX` of background.ts line 240.  The source computes
`(currentWindow.left ?? 0) + ((currentWindow.width ?? DEFAULT_WINDOW_WIDTH) / 2)`
in exact IEEE arithmetic (the operands are integral pixel values, the one
division is by 2).  To keep the model executable we carry the centre scaled
by 2, which is an integer: `2*(left + width/2) = 2*left + width` exactly.
`centerInWorkArea_eq_rat` below proves the scaled comparisons equivalent to
the exact rational ones of the source. -/
def windowCenterX2 (w : WindowBounds) : Int :=
  2 * w.left.getD 0 + w.width.getD DEFAULT_WINDOW_WIDTH

/-- Twice the `windowCenterY` of background.ts line 241. -/
def windowCenterY2 (w : WindowBounds) : Int :=
  2 * w.top.getD 0 + w.height.getD DEFAULT_WINDOW_HEIGHT

/-- The predicate of the `displays.find(...)` call (background.ts lines
243-248): the window centre lies in the display's work area, half-open on
the right/bottom.  `cx2`/`cy2` are the doubled centre coordinates, so every
work-area bound is doubled as well (an exact transformation of the source's
comparisons; see `centerInWorkArea_eq_rat`). -/
def centerInWorkArea (cx2 cy2 : Int) (d : Display) : Bool :=
  decide (2 * d.workArea.left ≤ cx2) &&
  decide (cx2 < 2 * (d.workArea.left + d.workArea.width)) &&
  decide (2 * d.workArea.top ≤ cy2) &&
  decide (cy2 < 2 * (d.workArea.top + d.workArea.height))

/-- The `bounds` local of `getDisplayBounds` (background.ts lines 227-259)
before the final `enforceMinimumDimensions` call: fall back to the current
window's bounds when no display information is available, otherwise pick the
first display whose work area contains the window centre, with `displays[0]`
as fallback. -/
def rawDisplayBounds (displays : List Display) (currentWindow : WindowBounds) :
    DisplayBounds :=
  if displays.isEmpty then
    { left := currentWindow.left.getD 0
      top := currentWindow.top.getD 0
      width := currentWindow.width.getD DEFAULT_WINDOW_WIDTH
      height := currentWindow.height.getD DEFAULT_WINDOW_HEIGHT }
  else
    let cx2 := windowCenterX2 currentWindow
    let cy2 := windowCenterY2 currentWindow
    let display := (displays.find? (centerInWorkArea cx2 cy2)).getD displays.headI
    { left := display.workArea.left
      top := display.workArea.top
      width := display.workArea.width
      height := display.workArea.height }

/-- `getDisplayBounds` (background.ts lines 226-262): the raw bounds followed
by `enforceMinimumDimensions`. -/
def getDisplayBounds (displays : List Display) (currentWindow : WindowBounds) :
    DisplayBounds :=
  enforceMinimumDimensions (rawDisplayBounds displays currentWindow)

/-- The split computation of `handleSplitView` (background.ts lines 73-90):
`halfWidth = Math.floor(displayWidth / 2)` (exactly `Int.fdiv` on integral
pixel widths), both windows `halfWidth + OVERLAP_PIXELS` wide, the right
window shifted left by `OVERLAP_PIXELS` from the midpoint.  Returns
`(leftPosition, rightPosition)`. -/
def splitWindowPositions (b : DisplayBounds) : WindowPosition × WindowPosition :=
  let halfWidth := Int.fdiv b.width 2
  let leftWidth := halfWidth + OVERLAP_PIXELS
  let rightWidth := halfWidth + OVERLAP_PIXELS
  ({ left := b.left, top := b.top, width := leftWidth, height := b.height },
   { left := b.left + halfWidth - OVERLAP_PIXELS, top := b.top,
     width := rightWidth, height := b.height })

/-- The composed geometry resolver (spec §4.1 `computeSplitLayout`):
display-bounds resolution followed by the split computation. -/
def computeSplitLayout (displays : List Display) (currentWindow : WindowBounds) :
    WindowPosition × WindowPosition :=
  splitWindowPositions (getDisplayBounds displays currentWindow)

/-- The first monitor of the spec §8 example. -/
def exampleMonitorA : Display := ⟨⟨0, 0, 1920, 1080⟩⟩

/-- The second monitor of the spec §8 example. -/
def exampleMonitorB : Display := ⟨⟨1920, 0, 1920, 1080⟩⟩

/-- The current-window bounds of the spec §8 example. -/
def exampleWindow : WindowBounds := ⟨some 2400, some 300, some 800, some 600⟩

/-- A small window used to exercise the clamping step. -/
def smallWindow : WindowBounds := ⟨some 100, some 50, some 200, some 150⟩

/-- JavaScript `String.prototype.includes`: the needle occurs as a contiguous
substring anywhere in the string (used at background.ts lines 52 and 159). -/
def jsIncludes (s needle : String) : Bool :=
  decide (needle.toList <:+: s.toList)

/-- JavaScript `String.prototype.startsWith` (used at background.ts line 51),
as a prefix test on the character lists. -/
def jsStartsWith (s pre : String) : Bool :=
  pre.toList.isPrefixOf s.toList

/-- The `UNSUPPORTED_PREFIXES` array of background.ts lines 42-49. -/
def UNSUPPORTED_PREFIXES : List String :=
  ["chrome://", "edge://", "about:", "chrome-extension://", "edge-extension://", "file://"]

/-- Error message of background.ts line 38. -/
def INVALID_TAB_MESSAGE : String :=
  "The tab information is invalid. Please check your browser settings or try again."

/-- Error message of background.ts line 53. -/
def UNSUPPORTED_PAGE_MESSAGE : String :=
  "This page type cannot be translated. Please try on a regular website."

/-- The two validation failures of `handleSplitView` (background.ts
lines 37-54). -/
inductive SplitError where
  | invalidTab : SplitError
  | unsupportedPage : SplitError
deriving DecidableEq

/-- The validation step of `handleSplitView` (background.ts lines 37-54).
`invalidTab` corresponds to the JS condition
`!currentTab || !currentTab.url || typeof currentTab.windowId !== "number"`
(note `!currentTab.url` is JS falsiness, so the empty string is also
rejected); `unsupportedPage` to the prefix/`translate.goog` check.  On
success it yields the values the rest of `handleSplitView` reads from the
tab: `(currentTab.id, currentTab.url, currentTab.windowId)`. -/
def validateTab (currentTab : Option Tab) : Except SplitError (Option Int × String × Int) :=
  match currentTab with
  | none => .error .invalidTab
  | some tab =>
    match tab.url, tab.windowId with
    | some url, some windowId =>
      if url = "" then .error .invalidTab
      else if UNSUPPORTED_PREFIXES.any (fun pre => jsStartsWith url pre) ||
          jsIncludes url "translate.goog" then .error .unsupportedPage
      else .ok (tab.id, url, windowId)
    | _, _ => .error .invalidTab

/-- A single hexadecimal digit in upper case, as produced by
`encodeURIComponent` percent escapes. -/
def hexUpperDigit (n : Nat) : Char :=
  if n < 10 then Char.ofNat (48 + n) else Char.ofNat (55 + n)

/-- A percent escape `%XX` for one byte. -/
def percentEncodeByte (b : Nat) : String :=
  String.mk ['%', hexUpperDigit (b / 16), hexUpperDigit (b % 16)]

/-- The UTF-8 encoding of one Unicode scalar value, as a list of bytes. -/
def utf8Bytes (c : Char) : List Nat :=
  let n := c.toNat
  if n < 128 then [n]
  else if n < 2048 then [192 + n / 64, 128 + n % 64]
  else if n < 65536 then [224 + n / 4096, 128 + (n / 64) % 64, 128 + n % 64]
  else [240 + n / 262144, 128 + (n / 4096) % 64, 128 + (n / 64) % 64, 128 + n % 64]

/-- The characters `encodeURIComponent` leaves unescaped (ECMA-262
`uriUnescaped`): ASCII alphanumerics and `- _ . ! ~ * ' ( )`. -/
def isUnreservedUriChar (c : Char) : Bool :=
  (decide ('A' ≤ c) && decide (c ≤ 'Z')) ||
  (decide ('a' ≤ c) && decide (c ≤ 'z')) ||
  (decide ('0' ≤ c) && decide (c ≤ '9')) ||
  c == '-' || c == '_' || c == '.' || c == '!' || c == '~' ||
  c == '*' || c == Char.ofNat 39 || c == '(' || c == ')'

/-- Modelled platform builtin: ECMA-262 `encodeURIComponent`, used by
background.ts line 138.  Unreserved characters pass through; every other
character is UTF-8 encoded and each byte written as an upper-case `%XX`
escape. -/
def encodeURIComponent (s : String) : String :=
  String.join (s.toList.map (fun c =>
    if isUnreservedUriChar c then String.mk [c]
    else String.join ((utf8Bytes c).map percentEncodeByte)))

/-- The translation URL of background.ts line 138:
a template literal around the verbatim target language and the
percent-encoded source URL. -/
def buildTranslateUrl (targetLanguage : String) (url : String) : String :=
  "https://translate.google.com/translate?sl=auto&tl=" ++ targetLanguage ++
    "&u=" ++ encodeURIComponent url

deriving instance DecidableEq for Except

/-- One observation of the polled tab inside `waitForTabReady`
(background.ts lines 203-214): either `chrome.tabs.get` throws (`err`, e.g.
the tab was closed) or it resolves a tab whose optional `status` field is
returned. -/
inductive TabLookup where
  | err : TabLookup
  | ok (status : Option String) : TabLookup
deriving DecidableEq

/-- How one call of `waitForTabReady` ended.  The JS function returns
`undefined` in all three cases; the constructor only records which exit was
taken.  In particular no exit re-throws. -/
inductive WaitResult where
  | completed : WaitResult
  | tabGone : WaitResult
  | timedOut : WaitResult
deriving DecidableEq

/-- Default `maxWaitTime` of `waitForTabReady` (background.ts line 203). -/
def WAIT_DEFAULT_MAX_MS : Nat := 3000

/-- Poll interval of `waitForTabReady` (background.ts line 212). -/
def WAIT_POLL_INTERVAL_MS : Nat := 100

/-- The loop of `waitForTabReady`, iteration `i` onwards with `fuel`
remaining poll slots.  `lookup i` is what the i-th `chrome.tabs.get` call
observes.  Real time is abstracted into `fuel`: the `Date.now()` deadline
check admits only finitely many iterations (at most
`maxWaitTime / pollInterval` when lookups are instantaneous), and the
theorems below hold for every fuel value. -/
def waitForTabReadyAux (lookup : Nat → TabLookup) : Nat → Nat → WaitResult
  | 0, _ => .timedOut
  | fuel + 1, i =>
    match lookup i with
    | .err => .tabGone
    | .ok status =>
      if status = some "complete" then .completed
      else waitForTabReadyAux lookup fuel (i + 1)

/-- `waitForTabReady` (background.ts lines 203-214) over an abstract
observation sequence and poll budget. -/
def waitForTabReady (lookup : Nat → TabLookup) (fuel : Nat) : WaitResult :=
  waitForTabReadyAux lookup fuel 0

/-- The record persisted under the `splitViewData` key (`SplitViewData` in
`shared-types.ts`, written at background.ts lines 113-122).
`originalTabId` is `currentTab.id!`, which is never validated, hence
`Option Int`; the duplicated ids passed the truthiness check of line 103. -/
structure SplitViewData where
  originalTabId : Option Int
  duplicatedTabId : Int
  targetLanguage : String
  originalWindowId : Int
  duplicatedWindowId : Int
deriving DecidableEq

/-- The single-key `chrome.storage.local` contents relevant to the script:
the value stored under `splitViewData`, if any. -/
abbrev Store : Type := Option SplitViewData

/-- `chrome.storage.local.set({ splitViewData })` on the single-key store:
wholesale replacement of the record, regardless of the previous contents. -/
def storageSetSplitViewData (_store : Store) (d : SplitViewData) : Store :=
  some d

/-- A tab of the window returned by `chrome.windows.create`; the script only
reads its optional `id`. -/
structure CreatedTab where
  id : Option Int
deriving DecidableEq

/-- The window object resolved by `chrome.windows.create`; the script reads
its optional `id` and optional `tabs` array (background.ts line 103). -/
structure CreatedWindow where
  id : Option Int
  tabs : Option (List CreatedTab)
deriving DecidableEq

/-- The truthiness check of background.ts line 103:
`!rightWindow || !rightWindow.tabs || !rightWindow.tabs[0]?.id || !rightWindow.id`.
Returns the `(tabs[0].id, window.id)` pair when the window is usable.
JS note: an id equal to `0` is falsy and is rejected by the check, and an
empty `tabs` array is itself truthy but makes `tabs[0]?.id` undefined. -/
def createdWindowUsable : Option CreatedWindow → Option (Int × Int)
  | none => none
  | some w =>
    match w.tabs with
    | none => none
    | some tabs =>
      match tabs.head? with
      | none => none
      | some t0 =>
        match t0.id with
        | none => none
        | some tabId =>
          if tabId = 0 then none
          else
            match w.id with
            | none => none
            | some winId => if winId = 0 then none else some (tabId, winId)

/-- The host-API behaviour one invocation of the background script runs
against.  Each field models one `chrome.*` call as a total function that
either resolves (`.ok`) or rejects (`.error message`); `displays` is the
result of `getDisplayInfo` (background.ts lines 187-200, which never
rejects — it resolves `[]` when display information is unavailable);
`readyLookup1/2` and `readyFuel1/2` drive the two `waitForTabReady` polling
loops. -/
structure Env where
  windowsGet : Int → Except String WindowBounds
  displays : List Display
  windowsCreate : String → WindowPosition → Except String (Option CreatedWindow)
  windowsUpdateBounds : Int → WindowPosition → Except String Unit
  storageSetResult : Except String Unit
  readyLookup1 : Nat → TabLookup
  readyFuel1 : Nat
  tabsGet : Int → Except String Tab
  tabsUpdate : Int → String → Except String Unit
  readyLookup2 : Nat → TabLookup
  readyFuel2 : Nat
  windowsFocus : Int → Except String Unit

/-- `handleSplitView` (background.ts lines 32-130): validate, fetch the
current window, resolve display bounds, create the right window at the right
position, resize the original window to the left position, and build the
`SplitViewData` record that line 122 stores.  The outer try/catch of lines
33/126-129 only logs and rethrows, so errors propagate unchanged.  Returns
the stored record (the storage write itself is `storageSetSplitViewData`,
applied by the callers). -/
def handleSplitView (env : Env) (currentTab : Option Tab) (targetLanguage : String) :
    Except String SplitViewData :=
  match validateTab currentTab with
  | .error .invalidTab => .error INVALID_TAB_MESSAGE
  | .error .unsupportedPage => .error UNSUPPORTED_PAGE_MESSAGE
  | .ok (tabId, url, windowId) =>
    match env.windowsGet windowId with
    | .error e => .error e
    | .ok currentWindow =>
      let displayBounds := getDisplayBounds env.displays currentWindow
      let positions := splitWindowPositions displayBounds
      match env.windowsCreate url positions.2 with
      | .error e => .error e
      | .ok rightWindow =>
        match createdWindowUsable rightWindow with
        | none => .error "Failed to create right window"
        | some (dupTabId, dupWindowId) =>
          match env.windowsUpdateBounds windowId positions.1 with
          | .error e => .error e
          | .ok _ =>
            match env.storageSetResult with
            | .error e => .error e
            | .ok _ =>
              .ok { originalTabId := tabId
                    duplicatedTabId := dupTabId
                    targetLanguage := targetLanguage
                    originalWindowId := windowId
                    duplicatedWindowId := dupWindowId }

/-- `handleSplitView` together with its storage write (background.ts
line 122): on success the store holds the new record, wholesale. -/
def runSplitView (env : Env) (store : Store) (currentTab : Option Tab)
    (targetLanguage : String) : Except String Store :=
  match handleSplitView env currentTab targetLanguage with
  | .error e => .error e
  | .ok d => .ok (storageSetSplitViewData store d)

/-- The skip-if-already-translated test of background.ts line 159:
`currentUrl && currentUrl.includes("translate.google.com")`. -/
def alreadyTranslatePage : Option String → Bool
  | some u => jsIncludes u "translate.google.com"
  | none => false

/-- `handleSplitAndTranslate` (background.ts lines 133-184): build the
translation URL, run the split, read back the stored record, wait for the
duplicated tab, skip if it is already a Google Translate page, otherwise
navigate it to the translation URL, wait again and focus the right window.
When `currentTab` is `undefined`, line 138 (`currentTab.url!`) raises a
TypeError before anything else runs (modelled by the fixed message below);
when only the URL is `undefined`, `encodeURIComponent(undefined)` encodes
the string coercion "undefined". -/
def handleSplitAndTranslate (env : Env) (store : Store) (currentTab : Option Tab)
    (targetLanguage : String) : Except String Unit :=
  match currentTab with
  | none => .error "Cannot read properties of undefined (reading url)"
  | some tab =>
    let translateUrl := buildTranslateUrl targetLanguage (tab.url.getD "undefined")
    match handleSplitView env currentTab targetLanguage with
    | .error e => .error e
    | .ok data =>
      match storageSetSplitViewData store data with
      | none => .error "Split view data not found"
      | some saved =>
        if saved.duplicatedTabId = 0 then .error "Split view data not found"
        else
          let _ready1 := waitForTabReady env.readyLookup1 env.readyFuel1
          match env.tabsGet saved.duplicatedTabId with
          | .error e => .error e
          | .ok rightTab =>
            if alreadyTranslatePage rightTab.url then .ok ()
            else
              match env.tabsUpdate saved.duplicatedTabId translateUrl with
              | .error e => .error e
              | .ok _ =>
                let _ready2 := waitForTabReady env.readyLookup2 env.readyFuel2
                match env.windowsFocus saved.duplicatedWindowId with
                | .error e => .error e
                | .ok _ => .ok ()

/-- The response object sent by the message listener (background.ts
lines 24-26): `{success:true}` or `{success:false, error:<message>}`. -/
structure Response where
  success : Bool
  error : Option String
deriving DecidableEq

/-- The `chrome.runtime.onMessage` listener (background.ts lines 22-29):
for a `splitAndTranslate` message it runs `handleSplitAndTranslate` and
sends its result, converting a rejection into
`{success:false, error:error.message}`; for any other action it does not
respond (`none`). -/
def onMessage (env : Env) (store : Store) (action : String) (currentTab : Option Tab)
    (targetLanguage : String) : Option Response :=
  if action = "splitAndTranslate" then
    some (match handleSplitAndTranslate env store currentTab targetLanguage with
      | .ok _ => { success := true, error := none }
      | .error e => { success := false, error := some e })
  else none

/-- A fully well-behaved host-API environment used to instantiate the
orchestration theorems on concrete runs. -/
def testEnv : Env where
  windowsGet := fun _ => .ok ⟨some 0, some 0, some 1920, some 1080⟩
  displays := []
  windowsCreate := fun _ _ => .ok (some ⟨some 5, some [⟨some 6⟩]⟩)
  windowsUpdateBounds := fun _ _ => .ok ()
  storageSetResult := .ok ()
  readyLookup1 := fun _ => .ok (some "complete")
  readyFuel1 := 30
  tabsGet := fun i => .ok ⟨some i, some "https://example.com", some 1⟩
  tabsUpdate := fun _ _ => .ok ()
  readyLookup2 := fun _ => .ok (some "complete")
  readyFuel2 := 30
  windowsFocus := fun _ => .ok ()

/-- A well-formed source tab on an ordinary web page. -/
def tabOk : Tab := ⟨some 1, some "https://example.com", some 2⟩

/-- The doubled-integer containment test is exactly the source's rational
containment test of the centre `(l + wd/2, t + hgt/2)`. -/
theorem centerInWorkArea_eq_rat (l wd t hgt : Int) (d : Display) :
    centerInWorkArea (2 * l + wd) (2 * t + hgt) d =
      decide ((d.workArea.left : ℚ) ≤ (l : ℚ) + (wd : ℚ) / 2 ∧
        (l : ℚ) + (wd : ℚ) / 2 < (d.workArea.left : ℚ) + (d.workArea.width : ℚ) ∧
        (d.workArea.top : ℚ) ≤ (t : ℚ) + (hgt : ℚ) / 2 ∧
        (t : ℚ) + (hgt : ℚ) / 2 < (d.workArea.top : ℚ) + (d.workArea.height : ℚ)) := by
  have h1 : (2 * d.workArea.left ≤ 2 * l + wd) ↔
      ((d.workArea.left : ℚ) ≤ (l : ℚ) + (wd : ℚ) / 2) := by
    constructor
    · intro h
      qify at h
      linarith
    · intro h
      qify
      linarith
  have h2 : (2 * l + wd < 2 * (d.workArea.left + d.workArea.width)) ↔
      ((l : ℚ) + (wd : ℚ) / 2 < (d.workArea.left : ℚ) + (d.workArea.width : ℚ)) := by
    constructor
    · intro h
      qify at h
      linarith
    · intro h
      qify
      linarith
  have h3 : (2 * d.workArea.top ≤ 2 * t + hgt) ↔
      ((d.workArea.top : ℚ) ≤ (t : ℚ) + (hgt : ℚ) / 2) := by
    constructor
    · intro h
      qify at h
      linarith
    · intro h
      qify
      linarith
  have h4 : (2 * t + hgt < 2 * (d.workArea.top + d.workArea.height)) ↔
      ((t : ℚ) + (hgt : ℚ) / 2 < (d.workArea.top : ℚ) + (d.workArea.height : ℚ)) := by
    constructor
    · intro h
      qify at h
      linarith
    · intro h
      qify
      linarith
  simp [centerInWorkArea, h1, h2, h3, h4, Bool.and_assoc]

/-- C1: for every selected display area, both produced windows are
`floor(width/2) + 8` wide, they overlap horizontally by exactly
`2 * 8 = 16` pixels, and both share the area's top and height. -/
theorem claim_C1_split_geometry (b : DisplayBounds) :
    (splitWindowPositions b).1.width = Int.fdiv b.width 2 + 8 ∧
    (splitWindowPositions b).2.width = Int.fdiv b.width 2 + 8 ∧
    ((splitWindowPositions b).1.left + (splitWindowPositions b).1.width) -
        (splitWindowPositions b).2.left = 16 ∧
    (splitWindowPositions b).1.top = b.top ∧
    (splitWindowPositions b).2.top = b.top ∧
    (splitWindowPositions b).1.height = b.height ∧
    (splitWindowPositions b).2.height = b.height := by
  refine ⟨rfl, rfl, ?_, rfl, rfl, rfl, rfl⟩
  simp only [splitWindowPositions, OVERLAP_PIXELS]
  ring

/-- C2: with a non-empty monitor list, the resolver computes the window
centre as `(left + width/2, top + height/2)`, selects the first monitor
whose work area contains it (half-open on both axes), falls back to the
first monitor otherwise, and — before minimum clamping — copies that
monitor's work-area fields verbatim. -/
theorem claim_C2_monitor_selection (displays : List Display) (w : WindowBounds)
    (l t wd hgt : Int) (hne : displays ≠ [])
    (hl : w.left = some l) (htop : w.top = some t)
    (hw : w.width = some wd) (hh : w.height = some hgt) :
    rawDisplayBounds displays w =
      ((displays.find? (fun d =>
          decide ((d.workArea.left : ℚ) ≤ (l : ℚ) + (wd : ℚ) / 2 ∧
            (l : ℚ) + (wd : ℚ) / 2 < (d.workArea.left : ℚ) + (d.workArea.width : ℚ) ∧
            (d.workArea.top : ℚ) ≤ (t : ℚ) + (hgt : ℚ) / 2 ∧
            (t : ℚ) + (hgt : ℚ) / 2 < (d.workArea.top : ℚ) + (d.workArea.height : ℚ)))).getD
        displays.headI).workArea ∧
    getDisplayBounds displays w = enforceMinimumDimensions (rawDisplayBounds displays w) := by
  constructor
  · have hpred : (fun d => decide ((d.workArea.left : ℚ) ≤ (l : ℚ) + (wd : ℚ) / 2 ∧
        (l : ℚ) + (wd : ℚ) / 2 < (d.workArea.left : ℚ) + (d.workArea.width : ℚ) ∧
        (d.workArea.top : ℚ) ≤ (t : ℚ) + (hgt : ℚ) / 2 ∧
        (t : ℚ) + (hgt : ℚ) / 2 < (d.workArea.top : ℚ) + (d.workArea.height : ℚ)))
        = centerInWorkArea (2 * l + wd) (2 * t + hgt) := by
      funext d
      exact (centerInWorkArea_eq_rat l wd t hgt d).symm
    rw [hpred]
    simp only [rawDisplayBounds, windowCenterX2, windowCenterY2, hl, htop, hw, hh,
      Option.getD_some]
    rw [if_neg]
    simp [List.isEmpty_iff, hne]
  · rfl

/-- Witness for C2 at the spec §8 example: the window centred at
`(2800, 600)` selects the second monitor. -/
theorem claim_C2_monitor_selection_witness :
    rawDisplayBounds [exampleMonitorA, exampleMonitorB] exampleWindow =
      ⟨1920, 0, 1920, 1080⟩ ∧
    getDisplayBounds [exampleMonitorA, exampleMonitorB] exampleWindow =
      enforceMinimumDimensions
        (rawDisplayBounds [exampleMonitorA, exampleMonitorB] exampleWindow) := by
  refine ⟨by decide, ?_⟩
  exact (claim_C2_monitor_selection [exampleMonitorA, exampleMonitorB] exampleWindow
    2400 300 800 600 (by decide) rfl rfl rfl rfl).2

/-- C3: the resolved display area always satisfies the 400×300 minimums;
when the raw area is below a minimum the resolved dimension equals the
minimum exactly; clamping never alters left/top. -/
theorem claim_C3_minimum_clamp (displays : List Display) (w : WindowBounds) :
    400 ≤ (getDisplayBounds displays w).width ∧
    300 ≤ (getDisplayBounds displays w).height ∧
    ((rawDisplayBounds displays w).width < 400 →
      (getDisplayBounds displays w).width = 400) ∧
    ((rawDisplayBounds displays w).height < 300 →
      (getDisplayBounds displays w).height = 300) ∧
    (getDisplayBounds displays w).left = (rawDisplayBounds displays w).left ∧
    (getDisplayBounds displays w).top = (rawDisplayBounds displays w).top := by
  simp only [getDisplayBounds, enforceMinimumDimensions, MIN_WINDOW_WIDTH,
    MIN_WINDOW_HEIGHT]
  refine ⟨le_max_right _ _, le_max_right _ _, fun h => ?_, fun h => ?_, trivial, trivial⟩
  · exact max_eq_right h.le
  · exact max_eq_right h.le

/-- Witness for C3: a 200×150 raw area is clamped to exactly 400×300 with
left/top untouched. -/
theorem claim_C3_minimum_clamp_witness :
    (rawDisplayBounds [] smallWindow).width < 400 ∧
    (getDisplayBounds [] smallWindow).width = 400 ∧
    (getDisplayBounds [] smallWindow).left = 100 := by
  have h := claim_C3_minimum_clamp [] smallWindow
  exact ⟨by decide, h.2.2.1 (by decide), by decide⟩

/-- C4: with an empty monitor list the resolver takes the window's own
bounds, substituting 800/600 independently per absent dimension; on the
spec §8 example `{left:100, top:50, width:200, height:150}` the split then
yields a left window of `{left:100, top:50, width:208, height:300}`. -/
theorem claim_C4_empty_monitor_fallback :
    (∀ w : WindowBounds, rawDisplayBounds [] w =
      ⟨w.left.getD 0, w.top.getD 0,
       w.width.getD DEFAULT_WINDOW_WIDTH, w.height.getD DEFAULT_WINDOW_HEIGHT⟩) ∧
    (computeSplitLayout [] ⟨some 100, some 50, some 200, some 150⟩).1 =
      ⟨100, 50, 208, 300⟩ := by
  constructor
  · intro w
    rfl
  · decide

/-- C6: the translation URL is exactly the fixed prefix, the verbatim target
language, `&u=` and the component-encoded source URL; on the spec example it
is bit-exact. -/
theorem claim_C6_translate_url :
    (∀ u t : String, buildTranslateUrl t u =
      "https://translate.google.com/translate?sl=auto&tl=" ++ t ++ "&u=" ++
        encodeURIComponent u) ∧
    buildTranslateUrl "ja" "https://example.com/a?b=1" =
      "https://translate.google.com/translate?sl=auto&tl=ja&u=https%3A%2F%2Fexample.com%2Fa%3Fb%3D1" ∧
    encodeURIComponent " " = "%20" := by
  refine ⟨fun u t => rfl, by decide, by decide⟩

/-- C5 (amended): validation fails with the invalid-tab error iff the tab is
absent, its URL is absent **or empty** (JS falsiness of `!currentTab.url`),
or its windowId is not a number; given a well-formed tab it fails with the
unsupported-page error iff the URL starts with one of the fixed prefixes or
contains the substring `translate.goog`; `chrome://extensions/` is rejected
and `https://example.com` proceeds past validation. -/
theorem claim_C5_validation (t : Option Tab) :
    (validateTab t = .error .invalidTab ↔
      t = none ∨ ∃ tab, t = some tab ∧
        (tab.url = none ∨ tab.url = some "" ∨ tab.windowId = none)) ∧
    (∀ tab url w, t = some tab → tab.url = some url → url ≠ "" →
      tab.windowId = some w →
      (validateTab t = .error .unsupportedPage ↔
        UNSUPPORTED_PREFIXES.any (fun pre => jsStartsWith url pre) = true ∨
        jsIncludes url "translate.goog" = true)) ∧
    validateTab (some ⟨some 1, some "chrome://extensions/", some 1⟩) =
      .error .unsupportedPage ∧
    validateTab (some ⟨some 1, some "https://example.com", some 1⟩) =
      .ok (some 1, "https://example.com", 1) := by
  refine ⟨?_, ?_, by decide, by decide⟩
  · match t with
    | none => simp [validateTab]
    | some tab =>
      match hu : tab.url with
      | none => simp [validateTab, hu]
      | some url =>
        match hw : tab.windowId with
        | none => simp [validateTab, hu, hw]
        | some w =>
          by_cases hu0 : url = ""
          · subst hu0
            simp [validateTab, hu, hw]
          · by_cases hb : (UNSUPPORTED_PREFIXES.any (fun pre => jsStartsWith url pre) ||
                jsIncludes url "translate.goog") = true
            · simp [validateTab, hu, hw, hu0, hb]
            · simp [validateTab, hu, hw, hu0, hb]
  · intro tab url w ht hu hne hw
    subst ht
    by_cases hb : (UNSUPPORTED_PREFIXES.any (fun pre => jsStartsWith url pre) ||
        jsIncludes url "translate.goog") = true
    · simp only [validateTab, hu, hw, if_neg hne, if_pos hb]
      simp [Bool.or_eq_true] at hb
      simpa using hb
    · simp only [validateTab, hu, hw, if_neg hne, if_pos, hb, if_false]
      simp [Bool.or_eq_true] at hb
      simp [hb]
      exact hb.1

/-- Counterexample to C5 as stated: a present tab whose URL is the empty
string (present, hence not "absent") with a numeric windowId is still
rejected with the invalid-tab error, because `!currentTab.url` is true for
the empty string in JS. -/
theorem claim_C5_counterexample :
    validateTab (some ⟨some 1, some "", some 2⟩) = .error .invalidTab ∧
    (some (⟨some 1, some "", some 2⟩ : Tab) ≠ none) ∧
    (Tab.url ⟨some 1, some "", some 2⟩ ≠ none) ∧
    (Tab.windowId ⟨some 1, some "", some 2⟩ = some 2) := by
  decide

/-- Witness for C5 at a concrete input: applying the theorem to a tab with an
absent URL yields the invalid-tab error. -/
theorem claim_C5_validation_witness :
    validateTab (some ⟨some 7, none, some 3⟩) = .error .invalidTab :=
  (claim_C5_validation (some ⟨some 7, none, some 3⟩)).1.mpr
    (Or.inr ⟨⟨some 7, none, some 3⟩, rfl, Or.inl rfl⟩)

/-- If every lookup in the budget is a live, not-yet-complete tab, the loop
runs out its budget and times out. -/
theorem waitForTabReadyAux_timedOut (lookup : Nat → TabLookup) :
    ∀ fuel i,
      (∀ j, j < fuel → ∃ s, lookup (i + j) = .ok s ∧ s ≠ some "complete") →
      waitForTabReadyAux lookup fuel i = .timedOut := by
  intro fuel
  induction fuel with
  | zero => intro i _; rfl
  | succ n ih =>
    intro i h
    obtain ⟨s, hs, hsc⟩ := h 0 (Nat.succ_pos n)
    rw [Nat.add_zero] at hs
    simp only [waitForTabReadyAux, hs]
    rw [if_neg hsc]
    apply ih (i + 1)
    intro j hj
    have hjj := h (j + 1) (Nat.succ_lt_succ hj)
    rwa [show i + (j + 1) = i + 1 + j by omega] at hjj

/-- If the first non-pending observation within the budget is a failing
lookup, the loop stops there with `tabGone`. -/
theorem waitForTabReadyAux_tabGone (lookup : Nat → TabLookup) :
    ∀ k fuel i, k < fuel → lookup (i + k) = .err →
      (∀ j, j < k → ∃ s, lookup (i + j) = .ok s ∧ s ≠ some "complete") →
      waitForTabReadyAux lookup fuel i = .tabGone := by
  intro k
  induction k with
  | zero =>
    intro fuel i hk hek _
    match fuel, hk with
    | n + 1, _ =>
      rw [Nat.add_zero] at hek
      simp only [waitForTabReadyAux, hek]
  | succ m ih =>
    intro fuel i hk hek hpend
    match fuel, hk with
    | n + 1, hk =>
      obtain ⟨s, hs, hsc⟩ := hpend 0 (Nat.succ_pos m)
      rw [Nat.add_zero] at hs
      simp only [waitForTabReadyAux, hs]
      rw [if_neg hsc]
      apply ih n (i + 1) (Nat.lt_of_succ_lt_succ hk)
      · rwa [show i + 1 + m = i + (m + 1) by omega]
      · intro j hj
        have hjj := hpend (j + 1) (Nat.succ_lt_succ hj)
        rwa [show i + (j + 1) = i + 1 + j by omega] at hjj

/-- If the first non-pending observation within the budget reports status
`complete`, the loop stops there with `completed`. -/
theorem waitForTabReadyAux_completed (lookup : Nat → TabLookup) :
    ∀ k fuel i, k < fuel → lookup (i + k) = .ok (some "complete") →
      (∀ j, j < k → ∃ s, lookup (i + j) = .ok s ∧ s ≠ some "complete") →
      waitForTabReadyAux lookup fuel i = .completed := by
  intro k
  induction k with
  | zero =>
    intro fuel i hk hek _
    match fuel, hk with
    | n + 1, _ =>
      rw [Nat.add_zero] at hek
      simp [waitForTabReadyAux, hek]
  | succ m ih =>
    intro fuel i hk hek hpend
    match fuel, hk with
    | n + 1, hk =>
      obtain ⟨s, hs, hsc⟩ := hpend 0 (Nat.succ_pos m)
      rw [Nat.add_zero] at hs
      simp only [waitForTabReadyAux, hs]
      rw [if_neg hsc]
      apply ih n (i + 1) (Nat.lt_of_succ_lt_succ hk)
      · rwa [show i + 1 + m = i + (m + 1) by omega]
      · intro j hj
        have hjj := hpend (j + 1) (Nat.succ_lt_succ hj)
        rwa [show i + (j + 1) = i + 1 + j by omega] at hjj

/-- C7: `waitForTabReady` always terminates with one of the three normal
exits (it is a total function into `WaitResult`; no exit re-throws):
it returns `completed` as soon as the tab reports status "complete",
returns `tabGone` (without propagating the exception) as soon as a lookup
raises, and otherwise returns `timedOut` once the poll budget — the
bounded 3000 ms deadline sampled every 100 ms — is exhausted. -/
theorem claim_C7_wait_for_tab_ready (lookup : Nat → TabLookup) (fuel : Nat) :
    (∀ k, k < fuel → lookup k = .ok (some "complete") →
      (∀ j, j < k → ∃ s, lookup j = .ok s ∧ s ≠ some "complete") →
      waitForTabReady lookup fuel = .completed) ∧
    (∀ k, k < fuel → lookup k = .err →
      (∀ j, j < k → ∃ s, lookup j = .ok s ∧ s ≠ some "complete") →
      waitForTabReady lookup fuel = .tabGone) ∧
    ((∀ j, j < fuel → ∃ s, lookup j = .ok s ∧ s ≠ some "complete") →
      waitForTabReady lookup fuel = .timedOut) := by
  refine ⟨?_, ?_, ?_⟩
  · intro k hk hek hpend
    apply waitForTabReadyAux_completed lookup k fuel 0 hk
    · simpa using hek
    · intro j hj
      simpa using hpend j hj
  · intro k hk hek hpend
    apply waitForTabReadyAux_tabGone lookup k fuel 0 hk
    · simpa using hek
    · intro j hj
      simpa using hpend j hj
  · intro hpend
    apply waitForTabReadyAux_timedOut lookup fuel 0
    intro j hj
    simpa using hpend j hj

/-- Witness for C7: a tab that never reports "complete" times the loop out,
a first lookup failure stops it with `tabGone`, and a tab that is complete
on the first poll stops it with `completed`. -/
theorem claim_C7_wait_for_tab_ready_witness :
    waitForTabReady (fun _ => .ok (some "loading")) 30 = .timedOut ∧
    waitForTabReady (fun _ => .err) 30 = .tabGone ∧
    waitForTabReady (fun _ => .ok (some "complete")) 30 = .completed := by
  refine ⟨?_, ?_, ?_⟩
  · exact (claim_C7_wait_for_tab_ready (fun _ => .ok (some "loading")) 30).2.2
      (fun j _ => ⟨some "loading", rfl, by decide⟩)
  · exact (claim_C7_wait_for_tab_ready (fun _ => .err) 30).2.1 0 (by decide) rfl
      (fun j hj => absurd hj (Nat.not_lt_zero j))
  · exact (claim_C7_wait_for_tab_ready (fun _ => .ok (some "complete")) 30).1 0
      (by decide) rfl (fun j hj => absurd hj (Nat.not_lt_zero j))

/-- C8: for every host-API behaviour, prior store and request input, the
`splitAndTranslate` message listener always answers: every rejection of the
orchestration, at whatever step, is converted into
`{success:false, error:<the triggering message>}`, and a completed run is
answered with `{success:true}`; no exception escapes the handler. -/
theorem claim_C8_top_level_catch (env : Env) (store : Store) (tab : Option Tab)
    (lang : String) :
    ∃ r : Response, onMessage env store "splitAndTranslate" tab lang = some r ∧
      ((handleSplitAndTranslate env store tab lang = .ok () ∧
          r = { success := true, error := none }) ∨
       (∃ e, handleSplitAndTranslate env store tab lang = .error e ∧
          r = { success := false, error := some e })) := by
  cases h : handleSplitAndTranslate env store tab lang with
  | ok v =>
    cases v
    exact ⟨{ success := true, error := none }, by simp [onMessage, h],
      Or.inl ⟨rfl, rfl⟩⟩
  | error e =>
    exact ⟨{ success := false, error := some e }, by simp [onMessage, h],
      Or.inr ⟨e, rfl, rfl⟩⟩

/-- A successful `handleSplitView` run always records the requested target
language in the produced `SplitSession` record. -/
theorem handleSplitView_ok_targetLanguage (env : Env) (tab : Option Tab)
    (lang : String) (d : SplitViewData)
    (h : handleSplitView env tab lang = .ok d) : d.targetLanguage = lang := by
  unfold handleSplitView at h
  cases hv : validateTab tab with
  | error e =>
    rw [hv] at h
    cases e <;> simp at h
  | ok triple =>
    obtain ⟨tabId, url, windowId⟩ := triple
    rw [hv] at h
    dsimp only at h
    cases hw : env.windowsGet windowId with
    | error e =>
      rw [hw] at h
      simp at h
    | ok currentWindow =>
      rw [hw] at h
      dsimp only at h
      cases hc : env.windowsCreate url
          (splitWindowPositions (getDisplayBounds env.displays currentWindow)).2 with
      | error e =>
        rw [hc] at h
        simp at h
      | ok rightWindow =>
        rw [hc] at h
        dsimp only at h
        cases hu : createdWindowUsable rightWindow with
        | none =>
          rw [hu] at h
          simp at h
        | some p =>
          obtain ⟨dupTabId, dupWindowId⟩ := p
          rw [hu] at h
          dsimp only at h
          cases hb : env.windowsUpdateBounds windowId
              (splitWindowPositions (getDisplayBounds env.displays currentWindow)).1 with
          | error e =>
            rw [hb] at h
            simp at h
          | ok u =>
            rw [hb] at h
            dsimp only at h
            cases hs : env.storageSetResult with
            | error e =>
              rw [hs] at h
              simp at h
            | ok u2 =>
              rw [hs] at h
              simp only [Except.ok.injEq] at h
              rw [← h]

/-- C9: the stored record after a second successful split is exactly the
second invocation's record — wholesale, under the single fixed key — and is
independent of whatever the store held before (last-write-wins, no field
merged from the first invocation's record). -/
theorem claim_C9_session_overwrite (env1 env2 : Env) (tab : Option Tab)
    (lang : String) (store0 s1 s2 : Store)
    (h1 : runSplitView env1 store0 tab lang = .ok s1)
    (h2 : runSplitView env2 s1 tab lang = .ok s2) :
    (∃ d2, handleSplitView env2 tab lang = .ok d2 ∧ s2 = some d2 ∧
      d2.targetLanguage = lang) ∧
    ∀ store : Store, runSplitView env2 store tab lang = .ok s2 := by
  unfold runSplitView at h2
  cases hsv : handleSplitView env2 tab lang with
  | error e =>
    rw [hsv] at h2
    cases h2
  | ok d =>
    rw [hsv] at h2
    have hs2 : s2 = some d := by
      cases h2
      rfl
    refine ⟨⟨d, rfl, hs2, handleSplitView_ok_targetLanguage env2 tab lang d hsv⟩, ?_⟩
    intro store
    unfold runSplitView
    rw [hsv, hs2]
    rfl

/-- Witness for C9: two sequential successful splits against `testEnv`
leave exactly the second run's record in the store, regardless of the
store's earlier contents. -/
theorem claim_C9_session_overwrite_witness :
    runSplitView testEnv none (some tabOk) "ja" =
      .ok (some ⟨some 1, 6, "ja", 2, 5⟩) :=
  (claim_C9_session_overwrite testEnv testEnv (some tabOk) "ja"
    (some ⟨some 9, 9, "xx", 9, 9⟩)
    (some ⟨some 1, 6, "ja", 2, 5⟩) (some ⟨some 1, 6, "ja", 2, 5⟩)
    (by decide) (by decide)).2 none

/-- `translate.goog` is an infix of `translate.google.com`, so any string
that `includes` the latter also `includes` the former. -/
theorem jsIncludes_goog_of_google (u : String)
    (h : jsIncludes u "translate.google.com" = true) :
    jsIncludes u "translate.goog" = true := by
  simp only [jsIncludes, decide_eq_true_eq] at h ⊢
  exact List.IsInfix.trans (by decide) h

/-- Any well-formed tab whose URL contains `translate.goog` anywhere is
rejected by validation with the unsupported-page error. -/
theorem validateTab_rejects_goog (tab : Tab) (url : String) (w : Int)
    (hu : tab.url = some url) (hne : url ≠ "") (hw : tab.windowId = some w)
    (hgoog : jsIncludes url "translate.goog" = true) :
    validateTab (some tab) = .error .unsupportedPage := by
  simp [validateTab, hu, hw, hne, hgoog]

/-- C10: validation rejects, with the unsupported-page error, every tab
whose URL contains the substring `translate.goog` at any position — URLs on
`translate.google.com` and ordinary web URLs merely mentioning
`translate.goog` alike; consequently a source tab whose URL contains
`translate.google.com` always makes the whole orchestration fail with the
unsupported-page error and can never reach the skip-if-already-translated
check on the duplicated tab. -/
theorem claim_C10_substring_reject :
    (∀ tab url w, Tab.url tab = some url → url ≠ "" →
      Tab.windowId tab = some w → jsIncludes url "translate.goog" = true →
      validateTab (some tab) = .error .unsupportedPage) ∧
    validateTab (some ⟨some 1, some "https://translate.google.com/translate?x=1",
      some 1⟩) = .error .unsupportedPage ∧
    validateTab (some ⟨some 1, some "https://example.com/a?q=translate.goog",
      some 1⟩) = .error .unsupportedPage ∧
    (∀ env store tab url w lang, Tab.url tab = some url → url ≠ "" →
      Tab.windowId tab = some w →
      jsIncludes url "translate.google.com" = true →
      handleSplitAndTranslate env store (some tab) lang =
        .error UNSUPPORTED_PAGE_MESSAGE) := by
  refine ⟨?_, by decide, by decide, ?_⟩
  · intro tab url w hu hne hw hgoog
    exact validateTab_rejects_goog tab url w hu hne hw hgoog
  · intro env store tab url w lang hu hne hw hinc
    have hval := validateTab_rejects_goog tab url w hu hne hw
      (jsIncludes_goog_of_google url hinc)
    simp [handleSplitAndTranslate, handleSplitView, hval]

/-- Witness for C10: a tab pointing at Google Translate itself fails the
whole orchestration with the unsupported-page error under a fully
well-behaved environment. -/
theorem claim_C10_substring_reject_witness :
    handleSplitAndTranslate testEnv none
      (some ⟨some 1, some "https://translate.google.com/x", some 1⟩) "en" =
      .error UNSUPPORTED_PAGE_MESSAGE :=
  claim_C10_substring_reject.2.2.2 testEnv none
    ⟨some 1, some "https://translate.google.com/x", some 1⟩
    "https://translate.google.com/x" 1 "en" rfl (by decide) rfl (by decide)
